import Mathlib

/-!
Shallow embedding of the unwrap-print crate (src/lib.rs).

The crate has one global piece of state: `static PRINTER: Mutex<Option<fn(&str)>>`
(line 23).  We embed the mutex contents together with the mutex's poisoned flag
as an explicit state record, and every operation that calls
`PRINTER.lock().unwrap()` as a function that panics (returns
`MutexResult.poisonPanic`) when the lock is poisoned, mirroring Rust's
`Mutex::lock().unwrap()`.

Sinks (`fn(&str)` function pointers) are abstracted as values of an arbitrary
type `Sink`.  Invoking a sink is modelled as producing an `Invocation` event
recording which sink received which text; the default printer is modelled by
the bytes `println!` writes to stdout.
-/

namespace UnwrapPrint

/-- Result of an operation that locks the global mutex: Rust's
`Mutex::lock().unwrap()` panics when the mutex is poisoned, otherwise the
operation returns a value. -/
inductive MutexResult (α : Type) where
  | poisonPanic
  | ok (a : α)
deriving DecidableEq

/-- The global `PRINTER` slot (src/lib.rs line 23): the `Option<fn(&str)>`
contents of the mutex, together with the mutex's poisoned flag. -/
structure Registry (Sink : Type) where
  poisoned : Bool
  slot : Option Sink
deriving DecidableEq

/-- Initial state of `static PRINTER: Mutex<Option<fn(&str)>> = Mutex::new(None)`:
empty slot, lock not poisoned. -/
def Registry.init (Sink : Type) : Registry Sink := ⟨false, none⟩

/-- Embedding of `try_set_printer` (src/lib.rs lines 41-51): lock (panics if
poisoned); if the slot is occupied return `false` without mutating, otherwise
install the printer and return `true`. -/
def try_set_printer {Sink : Type} (printer : Sink) (st : Registry Sink) :
    MutexResult (Bool × Registry Sink) :=
  if st.poisoned then .poisonPanic
  else
    match st.slot with
    | some _ => .ok (false, st)
    | none => .ok (true, { st with slot := some printer })

/-- Embedding of `set_printer_force` (src/lib.rs lines 57-63): lock (panics if
poisoned) and unconditionally overwrite the slot. -/
def set_printer_force {Sink : Type} (printer : Sink) (st : Registry Sink) :
    MutexResult (Registry Sink) :=
  if st.poisoned then .poisonPanic
  else .ok { st with slot := some printer }

/-- The call `print` performs after dropping the lock: either the installed
sink receives the text, or the default printer writes it to stdout. -/
inductive Invocation (Sink : Type) where
  | sink (p : Sink) (text : String)
  | stdout (text : String)
deriving DecidableEq

/-- The invocation `print` performs given the slot contents
(src/lib.rs lines 96-100: `if let Some(printer) ... else default_printer`). -/
def invokeOn {Sink : Type} (st : Registry Sink) (text : String) : Invocation Sink :=
  match st.slot with
  | some p => .sink p text
  | none => .stdout text

/-- Embedding of `print` (src/lib.rs lines 79-101): the formatted string is
dispatched by copying the slot under the lock (panicking if poisoned), then
invoking the copied sink or the default printer.  The state is read, never
written, so it is returned unchanged. -/
def print {Sink : Type} (args : String) (st : Registry Sink) :
    MutexResult (Registry Sink × Invocation Sink) :=
  if st.poisoned then .poisonPanic
  else .ok (st, invokeOn st args)

/-- Embedding of `default_printer` (src/lib.rs lines 25-33): the bytes
`println!("{}", s)` appends to the standard output stream, namely the text
followed by a newline. -/
def default_printer (s : String) : String := s ++ "\n"

/-- Rust's `Result<T, E>`. -/
inductive RustResult (T E : Type) where
  | Ok (v : T)
  | Err (e : E)
deriving DecidableEq

/-- The data of `core::panic::Location` used by the `track-caller` feature
(src/lib.rs lines 123, 154): file, line and column of the call site. -/
structure CallerLoc where
  file : String
  line : Nat
  column : Nat
deriving DecidableEq

/-- The diagnostic text built by `unwrap_print`: with the `track-caller`
feature, `format_args!("Error at {}:{}:{}: ...", file, line, column)`
(src/lib.rs lines 125-130 and 156-161); without it,
`format_args!("Error: ...")` (lines 135 and 166).  `rendered` stands for the
rendering of the failure payload that follows the fixed text. -/
def errMsg (trackCaller : Bool) (loc : CallerLoc) (rendered : String) : String :=
  if trackCaller then
    "Error at " ++ loc.file ++ ":" ++ Nat.repr loc.line ++ ":" ++
      Nat.repr loc.column ++ ": " ++ rendered
  else
    "Error: " ++ rendered

/-- Embedding of `<Result<T, E> as PrintableResult>::unwrap_print`
(src/lib.rs lines 117-140).  `dbg` models the alternate Debug rendering
`{e:#?}` of the error payload.  The function returns the `Result` value
returned to the caller, the registry state afterwards, and the list of sink
invocations performed (one `print` call on the `Err` path, none on `Ok`). -/
def unwrap_print_result {Sink T E : Type} (dbg : E → String) (trackCaller : Bool)
    (loc : CallerLoc) (r : RustResult T E) (st : Registry Sink) :
    MutexResult (RustResult T E × Registry Sink × List (Invocation Sink)) :=
  match r with
  | .Ok v => .ok (.Ok v, st, [])
  | .Err e =>
    match print (errMsg trackCaller loc (dbg e)) st with
    | .poisonPanic => .poisonPanic
    | .ok (st2, inv) => .ok (.Err e, st2, [inv])

/-- Embedding of `<Option<T> as PrintableResult>::unwrap_print`
(src/lib.rs lines 148-171).  On `None` the rendered payload is the fixed
literal `Option::None` from the source format strings (lines 157 and 166). -/
def unwrap_print_option {Sink T : Type} (trackCaller : Bool) (loc : CallerLoc)
    (o : Option T) (st : Registry Sink) :
    MutexResult (RustResult T Unit × Registry Sink × List (Invocation Sink)) :=
  match o with
  | some v => .ok (.Ok v, st, [])
  | none =>
    match print (errMsg trackCaller loc "Option::None") st with
    | .poisonPanic => .poisonPanic
    | .ok (st2, inv) => .ok (.Err (), st2, [inv])

/-- Run a sequence of `try_set_printer` calls from a given state, collecting
the returned booleans and the final state; `none` when some call panicked on a
poisoned lock. -/
def try_set_seq {Sink : Type} : List Sink → Registry Sink →
    Option (List Bool × Registry Sink)
  | [], st => some ([], st)
  | p :: ps, st =>
    match try_set_printer p st with
    | .poisonPanic => none
    | .ok (b, st2) =>
      match try_set_seq ps st2 with
      | none => none
      | some (bs, st3) => some (b :: bs, st3)

/-!
Lock/invocation event model for the dispatch discipline of `print`
(src/lib.rs lines 85-101).  The source computes `maybe_printer` inside a block
that acquires the guard and drops it when the block ends (lines 89-94), and
only afterwards invokes the copied printer or `default_printer`
(lines 96-100).  We record this as a sequence of atomic events and give an
execution semantics where the invoked sink may itself re-enter `print`.
-/

/-- Atomic events of one execution of `print`: taking and dropping the
`PRINTER` mutex guard, and invoking the installed sink or the default
printer. -/
inductive PrintEvent where
  | lockAcquire
  | lockRelease
  | invokeSink
  | invokeStdout
deriving DecidableEq

/-- The event sequence of `print` as written in the source: the guard is
acquired and dropped by the `maybe_printer` block (lines 89-94), after which
the sink (if installed) or the default printer runs (lines 96-100). -/
def printEvents (installed : Bool) : List PrintEvent :=
  [.lockAcquire, .lockRelease, if installed then .invokeSink else .invokeStdout]

/-- Check that every invocation event in the list happens while the lock is
not held (second argument tracks whether the lock is currently held). -/
def invokeOutsideLock : List PrintEvent → Bool → Bool
  | [], _ => true
  | .lockAcquire :: rest, _ => invokeOutsideLock rest true
  | .lockRelease :: rest, _ => invokeOutsideLock rest false
  | .invokeSink :: rest, locked => !locked && invokeOutsideLock rest locked
  | .invokeStdout :: rest, locked => !locked && invokeOutsideLock rest locked

/-- Execute a list of print events with a lock flag, where the behavior of
the invoked sink is given by `sinkRun` (mapping the lock state at invocation
time to `none` on deadlock or the lock state after the sink returns).
Acquiring an already-held lock is a deadlock, returned as `none`; otherwise
the final lock state is returned. -/
def execEventsWith (sinkRun : Bool → Option Bool) : List PrintEvent → Bool → Option Bool
  | [], locked => some locked
  | .lockAcquire :: rest, locked =>
    if locked then none else execEventsWith sinkRun rest true
  | .lockRelease :: rest, _ => execEventsWith sinkRun rest false
  | .invokeStdout :: rest, locked => execEventsWith sinkRun rest locked
  | .invokeSink :: rest, locked =>
    match sinkRun locked with
    | none => none
    | some locked2 => execEventsWith sinkRun rest locked2

/-- Execute one call to `print` with a sink installed, where the sink itself
re-enters `print` up to `d` more nested times before returning.  `d = 0` is a
sink that does not re-enter; `d = k + 1` is a sink whose body performs one
nested `print` with budget `k`. -/
def execPrint : Nat → Bool → Option Bool
  | 0, locked => execEventsWith (fun l => some l) (printEvents true) locked
  | Nat.succ k, locked => execEventsWith (execPrint k) (printEvents true) locked

/-!
Client-call-sequence model for the no-panic claim.  A client program is an
arbitrary sequence of calls into the crate's public API; running it threads
the registry state through and reports a panic if any call panics on a
poisoned lock.
-/

/-- One public API call of the crate. -/
inductive RegOp (Sink T E : Type) where
  | trySet (p : Sink)
  | setForce (p : Sink)
  | doPrint (text : String)
  | unwrapR (trackCaller : Bool) (loc : CallerLoc) (r : RustResult T E)
  | unwrapO (trackCaller : Bool) (loc : CallerLoc) (o : Option T)

/-- Run one public API call, keeping only the registry state (panic is
propagated). -/
def runOp {Sink T E : Type} (dbg : E → String) :
    RegOp Sink T E → Registry Sink → MutexResult (Registry Sink)
  | .trySet p, st =>
    match try_set_printer p st with
    | .poisonPanic => .poisonPanic
    | .ok (_, st2) => .ok st2
  | .setForce p, st => set_printer_force p st
  | .doPrint text, st =>
    match print text st with
    | .poisonPanic => .poisonPanic
    | .ok (st2, _) => .ok st2
  | .unwrapR tc loc r, st =>
    match unwrap_print_result dbg tc loc r st with
    | .poisonPanic => .poisonPanic
    | .ok (_, st2, _) => .ok st2
  | .unwrapO tc loc o, st =>
    match unwrap_print_option tc loc o st with
    | .poisonPanic => .poisonPanic
    | .ok (_, st2, _) => .ok st2

/-- Run a sequence of public API calls from a state; the first panic aborts
the run. -/
def runOps {Sink T E : Type} (dbg : E → String) :
    List (RegOp Sink T E) → Registry Sink → MutexResult (Registry Sink)
  | [], st => .ok st
  | op :: ops, st =>
    match runOp dbg op st with
    | .poisonPanic => .poisonPanic
    | .ok st2 => runOps dbg ops st2

/-!
One-line machinery: the claim about diagnostics being a single line is about
the newline character, so we check the character data of the string.
-/

/-- A string is one line when its character data contains no newline. -/
def oneLine (s : String) : Bool := !s.data.any (fun c => c == '\n')

/-- Rust's alternate Debug rendering `{:#?}` of a `Vec<u64>`, as produced by
the standard library: the empty vector renders as `[]`, and a non-empty one
renders multi-line, each element on its own line with four-space indentation
and a trailing comma (e.g. `vec![1]` renders as the three lines `[`, `    1,`
and `]`). -/
def rustDebugAltList (xs : List Nat) : String :=
  if xs.isEmpty then "[]"
  else "[\n" ++ String.join (xs.map (fun n => "    " ++ Nat.repr n ++ ",\n")) ++ "]"

/-!
Helper lemmas.
-/

/-- On an unpoisoned registry whose slot is occupied, every `try_set_printer`
in a sequence returns `false` and leaves the state unchanged. -/
theorem try_set_seq_occupied {Sink : Type} (p : Sink) :
    ∀ (ps : List Sink) (st : Registry Sink), st.poisoned = false → st.slot = some p →
      try_set_seq ps st = some (ps.map (fun _ => false), st)
  | [], _, _, _ => rfl
  | q :: ps, st, h1, h2 => by
    simp [try_set_seq, try_set_printer, h1, h2, try_set_seq_occupied p ps st h1 h2]

/-- The diagnostic text always ends with the rendered payload: it is some
fixed text followed by `rendered`. -/
theorem errMsg_append (tc : Bool) (loc : CallerLoc) (rendered : String) :
    ∃ q, errMsg tc loc rendered = q ++ rendered := by
  cases tc
  · exact ⟨"Error: ", rfl⟩
  · exact ⟨"Error at " ++ loc.file ++ ":" ++ Nat.repr loc.line ++ ":" ++
      Nat.repr loc.column ++ ": ", rfl⟩

/-!
Claim theorems.
-/

/-- C1 (install-once semantics): starting from the initial empty slot, the
first `try_set_printer` returns `true` and installs its argument; every
subsequent `try_set_printer` in the sequence (no force install or reset in
between) returns `false`, and the originally installed sink is still the slot
contents at the end. -/
theorem c1_install_once {Sink : Type} (p : Sink) (ps : List Sink) :
    try_set_seq (p :: ps) (Registry.init Sink) =
      some (true :: ps.map (fun _ => false), ⟨false, some p⟩) := by
  simp [try_set_seq, try_set_printer, Registry.init,
    try_set_seq_occupied p ps ⟨false, some p⟩ rfl rfl]

/-- C2 (force overwrite): on any unpoisoned state, `set_printer_force`
replaces the slot contents with its argument, and a subsequent `print`
invokes exactly that newly installed sink. -/
theorem c2_force_overwrite {Sink : Type} (p : Sink) (text : String)
    (st : Registry Sink) (h : st.poisoned = false) :
    set_printer_force p st = .ok ⟨false, some p⟩ ∧
    print text (⟨false, some p⟩ : Registry Sink) =
      .ok (⟨false, some p⟩, .sink p text) := by
  obtain ⟨po, sl⟩ := st
  cases h
  exact ⟨rfl, rfl⟩

/-- Witness for C2: force-installing sink `2` over a state already holding
sink `1` replaces it, and `print` then invokes only sink `2`. -/
theorem c2_force_overwrite_witness :
    set_printer_force 2 ⟨false, some 1⟩ = .ok ⟨false, some 2⟩ ∧
    print "msg" (⟨false, some 2⟩ : Registry Nat) =
      .ok (⟨false, some 2⟩, .sink 2 "msg") :=
  c2_force_overwrite 2 "msg" ⟨false, some 1⟩ rfl

/-- C5 (pass-through on success): on a success-shaped input, `unwrap_print`
returns `Ok` with the identical payload, performs no sink invocation, and
leaves the registry state (in particular the slot) unchanged — on this path
the mutex is never even locked, so this holds for every state. -/
theorem c5_pass_through {Sink T E : Type} (dbg : E → String) (tc : Bool)
    (loc : CallerLoc) (v : T) (st : Registry Sink) :
    unwrap_print_result (E := E) dbg tc loc (.Ok v) st = .ok (.Ok v, st, []) ∧
    unwrap_print_option tc loc (some v) st = .ok (.Ok v, st, []) :=
  ⟨rfl, rfl⟩

/-- C7 (default sink fidelity): with no sink installed, `print` routes the
text to the default printer, and the default printer writes exactly the text
followed by a newline to standard output. -/
theorem c7_default_sink {Sink : Type} (text : String) (st : Registry Sink)
    (h1 : st.poisoned = false) (h2 : st.slot = none) :
    print text st = .ok (st, .stdout text) ∧
    default_printer text = text ++ "\n" := by
  constructor
  · simp [print, h1, invokeOn, h2]
  · rfl

/-- Witness for C7: dispatching "foobar" on the initial state produces the
stdout invocation, whose default printer output is "foobar" plus a
newline. -/
theorem c7_default_sink_witness :
    print "foobar" (Registry.init Nat) = .ok (Registry.init Nat, .stdout "foobar") ∧
    default_printer "foobar" = "foobar" ++ "\n" :=
  c7_default_sink "foobar" (Registry.init Nat) rfl rfl

/-- C10 (install-once rejects any occupied slot): after `set_printer_force`
fills the initially empty slot (no successful `try_set_printer` before it),
every `try_set_printer` in a following sequence returns `false` and the
force-installed sink stays in the slot. -/
theorem c10_force_then_try {Sink : Type} (p : Sink) (qs : List Sink) :
    set_printer_force p (Registry.init Sink) = .ok ⟨false, some p⟩ ∧
    try_set_seq qs (⟨false, some p⟩ : Registry Sink) =
      some (qs.map (fun _ => false), ⟨false, some p⟩) :=
  ⟨rfl, try_set_seq_occupied p qs ⟨false, some p⟩ rfl rfl⟩

/-- A print execution whose installed sink re-enters `print` to any nesting
depth completes from the unlocked state, ending unlocked. -/
theorem execPrint_completes : ∀ d : Nat, execPrint d false = some false
  | 0 => rfl
  | Nat.succ k => by
    simp [execPrint, execEventsWith, printEvents, execPrint_completes k]

/-- C3 (dispatch lock discipline and re-entrancy): in the event sequence of
`print`, whether or not a sink is installed, every invocation happens with
the lock already released; consequently a sink that re-enters `print` to any
nesting depth `d` completes without deadlock (as does the default-printer
path). -/
theorem c3_lock_discipline (installed : Bool) (d : Nat) :
    invokeOutsideLock (printEvents installed) false = true ∧
    execPrint d false = some false ∧
    execEventsWith (fun l => some l) (printEvents false) false = some false := by
  refine ⟨?_, execPrint_completes d, rfl⟩
  cases installed <;> rfl

/-- Every single API call on an unpoisoned state returns normally and leaves
the lock unpoisoned: no critical section of the crate can panic while
holding the lock. -/
theorem runOp_ok {Sink T E : Type} (dbg : E → String) (op : RegOp Sink T E) :
    ∀ st : Registry Sink, st.poisoned = false →
      ∃ st2, runOp dbg op st = .ok st2 ∧ st2.poisoned = false := by
  intro st h
  obtain ⟨po, sl⟩ := st
  cases h
  cases op with
  | trySet p =>
    cases sl with
    | none => exact ⟨⟨false, some p⟩, rfl, rfl⟩
    | some q => exact ⟨⟨false, some q⟩, rfl, rfl⟩
  | setForce p => exact ⟨⟨false, some p⟩, rfl, rfl⟩
  | doPrint text => exact ⟨⟨false, sl⟩, rfl, rfl⟩
  | unwrapR tc loc r =>
    cases r with
    | Ok v => exact ⟨⟨false, sl⟩, rfl, rfl⟩
    | Err e => exact ⟨⟨false, sl⟩, rfl, rfl⟩
  | unwrapO tc loc o =>
    cases o with
    | some v => exact ⟨⟨false, sl⟩, rfl, rfl⟩
    | none => exact ⟨⟨false, sl⟩, rfl, rfl⟩

/-- Any sequence of API calls from an unpoisoned state completes without a
panic and keeps the lock unpoisoned. -/
theorem runOps_ok {Sink T E : Type} (dbg : E → String) :
    ∀ (ops : List (RegOp Sink T E)) (st : Registry Sink), st.poisoned = false →
      ∃ st2, runOps dbg ops st = .ok st2 ∧ st2.poisoned = false
  | [], st, h => ⟨st, rfl, h⟩
  | op :: ops, st, h => by
    obtain ⟨st2, h2, h3⟩ := runOp_ok dbg op st h
    obtain ⟨st3, h4, h5⟩ := runOps_ok dbg ops st2 h3
    exact ⟨st3, by simp [runOps, h2, h4], h5⟩

/-- C8 (no raise or abort): every sequence of API calls — `try_set_printer`,
`set_printer_force`, `print`, and `unwrap_print` on both container shapes
with arbitrary inputs — starting from the crate's initial state returns
normally: no call ever panics, because the lock is never poisoned on any
reachable state. -/
theorem c8_no_panic {Sink T E : Type} (dbg : E → String)
    (ops : List (RegOp Sink T E)) :
    ∃ st, runOps dbg ops (Registry.init Sink) = .ok st ∧ st.poisoned = false :=
  runOps_ok dbg ops (Registry.init Sink) rfl

/-- C4 (diagnostic on failure): on a failure-shaped input and an unpoisoned
state, `unwrap_print` returns the original failure payload unchanged
(`Err e` with the identical `e`, or `Err ()` for `None`), and performs
exactly one dispatch, whose text ends with the debug rendering of the
payload (the fixed literal `Option::None` in the absence case). -/
theorem c4_diag_on_failure {Sink T E : Type} (dbg : E → String) (tc : Bool)
    (loc : CallerLoc) (e : E) (st : Registry Sink) (h : st.poisoned = false) :
    (∃ m q, unwrap_print_result (T := T) dbg tc loc (.Err e) st
        = .ok (.Err e, st, [invokeOn st m]) ∧ m = q ++ dbg e) ∧
    (∃ m q, unwrap_print_option (T := T) tc loc none st
        = .ok (.Err (), st, [invokeOn st m]) ∧ m = q ++ "Option::None") := by
  constructor
  · obtain ⟨q, hq⟩ := errMsg_append tc loc (dbg e)
    exact ⟨errMsg tc loc (dbg e), q, by simp [unwrap_print_result, print, h], hq⟩
  · obtain ⟨q, hq⟩ := errMsg_append tc loc "Option::None"
    exact ⟨errMsg tc loc "Option::None", q, by simp [unwrap_print_option, print, h], hq⟩

/-- Witness for C4: on the initial state, `unwrap_print` on `Err "boom"`
returns `Err "boom"` with a single dispatch ending in the rendering of
"boom", and on `None` returns `Err ()` with a single dispatch ending in
`Option::None`. -/
theorem c4_diag_on_failure_witness :
    (∃ m q, unwrap_print_result (T := Unit) (fun s : String => s)
        false ⟨"lib.rs", 1, 2⟩ (.Err "boom") (Registry.init Nat)
        = .ok (.Err "boom", Registry.init Nat, [invokeOn (Registry.init Nat) m]) ∧
        m = q ++ "boom") ∧
    (∃ m q, unwrap_print_option (T := Unit) false ⟨"lib.rs", 1, 2⟩
        none (Registry.init Nat)
        = .ok (.Err (), Registry.init Nat, [invokeOn (Registry.init Nat) m]) ∧
        m = q ++ "Option::None") :=
  c4_diag_on_failure (fun s : String => s) false ⟨"lib.rs", 1, 2⟩ "boom"
    (Registry.init Nat) rfl

/-- C6 (exact diagnostic format): on an unpoisoned state, the string
dispatched on failure is exactly "Error at file:line:column: " followed by
the payload rendering with call-site capture, and exactly "Error: " followed
by the rendering without it; in the `None` case the rendered payload is the
fixed literal `Option::None`. -/
theorem c6_exact_format {Sink T E : Type} (dbg : E → String) (loc : CallerLoc)
    (e : E) (st : Registry Sink) (h : st.poisoned = false) :
    unwrap_print_result (T := T) dbg true loc (.Err e) st
      = .ok (.Err e, st, [invokeOn st ("Error at " ++ loc.file ++ ":" ++
          Nat.repr loc.line ++ ":" ++ Nat.repr loc.column ++ ": " ++ dbg e)]) ∧
    unwrap_print_result (T := T) dbg false loc (.Err e) st
      = .ok (.Err e, st, [invokeOn st ("Error: " ++ dbg e)]) ∧
    unwrap_print_option (T := T) true loc none st
      = .ok (.Err (), st, [invokeOn st ("Error at " ++ loc.file ++ ":" ++
          Nat.repr loc.line ++ ":" ++ Nat.repr loc.column ++ ": " ++ "Option::None")]) ∧
    unwrap_print_option (T := T) false loc none st
      = .ok (.Err (), st, [invokeOn st ("Error: " ++ "Option::None")]) := by
  refine ⟨?_, ?_, ?_, ?_⟩ <;>
    simp [unwrap_print_result, unwrap_print_option, print, errMsg, h]

/-- Witness for C6: at the concrete location a.rs:3:4 and payload rendered
as "()", the four dispatched strings are the fully evaluated literals. -/
theorem c6_exact_format_witness :
    unwrap_print_result (T := Unit) (fun _ : Unit => "()") true
        ⟨"a.rs", 3, 4⟩ (.Err ()) (Registry.init Nat)
      = .ok (.Err (), Registry.init Nat, [.stdout "Error at a.rs:3:4: ()"]) ∧
    unwrap_print_result (T := Unit) (fun _ : Unit => "()") false
        ⟨"a.rs", 3, 4⟩ (.Err ()) (Registry.init Nat)
      = .ok (.Err (), Registry.init Nat, [.stdout "Error: ()"]) ∧
    unwrap_print_option (T := Unit) true ⟨"a.rs", 3, 4⟩ none
        (Registry.init Nat)
      = .ok (.Err (), Registry.init Nat, [.stdout "Error at a.rs:3:4: Option::None"]) ∧
    unwrap_print_option (T := Unit) false ⟨"a.rs", 3, 4⟩ none
        (Registry.init Nat)
      = .ok (.Err (), Registry.init Nat, [.stdout "Error: Option::None"]) :=
  c6_exact_format (fun _ : Unit => "()") ⟨"a.rs", 3, 4⟩ () (Registry.init Nat) rfl

/-- A decimal digit character is never a newline. -/
theorem digitChar_ne_newline : ∀ n : Nat, (Nat.digitChar n == Char.ofNat 10) = false
  | 0 => rfl
  | 1 => rfl
  | 2 => rfl
  | 3 => rfl
  | 4 => rfl
  | 5 => rfl
  | 6 => rfl
  | 7 => rfl
  | 8 => rfl
  | 9 => rfl
  | 10 => rfl
  | 11 => rfl
  | 12 => rfl
  | 13 => rfl
  | 14 => rfl
  | 15 => rfl
  | _ + 16 => rfl

/-- Accumulating decimal digits never introduces a newline. -/
theorem toDigitsCore_ne_newline :
    ∀ (fuel n : Nat) (ds : List Char),
      (ds.any (fun c => c == Char.ofNat 10)) = false →
      ((Nat.toDigitsCore 10 fuel n ds).any (fun c => c == Char.ofNat 10)) = false
  | 0, _, _, h => h
  | Nat.succ fuel, n, ds, h => by
    unfold Nat.toDigitsCore
    dsimp only
    split
    · simp only [List.any_cons, digitChar_ne_newline, Bool.false_or]
      exact h
    · exact toDigitsCore_ne_newline fuel (n / 10) (Nat.digitChar (n % 10) :: ds)
        (by simp only [List.any_cons, digitChar_ne_newline, Bool.false_or]; exact h)

/-- The decimal rendering of a natural number is a single line. -/
theorem oneLine_repr (n : Nat) : oneLine (Nat.repr n) = true := by
  have h := toDigitsCore_ne_newline (n + 1) n [] rfl
  simp only [oneLine, Nat.repr, Nat.toDigits]
  rw [show ((Nat.toDigitsCore 10 (n + 1) n []).asString.data)
      = Nat.toDigitsCore 10 (n + 1) n [] from rfl, h]
  rfl

/-- A concatenation is a single line exactly when both parts are. -/
theorem oneLine_append (a b : String) : oneLine (a ++ b) = (oneLine a && oneLine b) := by
  simp [oneLine, String.data_append, List.any_append, Bool.not_or]

/-- The diagnostic text is a single line whenever the captured file name and
the rendered payload are. -/
theorem oneLine_errMsg (tc : Bool) (loc : CallerLoc) (rendered : String)
    (hf : oneLine loc.file = true) (hr : oneLine rendered = true) :
    oneLine (errMsg tc loc rendered) = true := by
  cases tc <;>
    simp [errMsg, oneLine_append, hf, hr, oneLine_repr,
      show oneLine "Error at " = true from rfl,
      show oneLine "Error: " = true from rfl,
      show oneLine ":" = true from rfl,
      show oneLine ": " = true from rfl]

/-- Refutation of C9 as stated: the diagnostic is not always a single line.
With the standard alternate Debug rendering of a `Vec<u64>` payload
(`{e:#?}` in the source, line 126/135 — pretty-printed, multi-line), the
single dispatched string for `Err(vec![1])` contains embedded newlines. -/
theorem c9_counterexample :
    unwrap_print_result (T := Unit) rustDebugAltList false
        ⟨"src/main.rs", 7, 13⟩ (.Err [1]) (Registry.init Nat)
      = .ok (.Err [1], Registry.init Nat, [.stdout "Error: [\n    1,\n]"]) ∧
    oneLine "Error: [\n    1,\n]" = false :=
  ⟨rfl, rfl⟩

/-- C9 amended (one-line diagnostic): the fixed parts of the diagnostic
contain no line terminator, so the dispatched string is a single line
whenever the captured file name and the payload's debug rendering are single
lines (in particular always for the `Option::None` literal); it is not a
single line for payloads whose alternate Debug rendering spans several
lines. -/
theorem c9_one_line_amended {Sink T E : Type} (dbg : E → String) (tc : Bool)
    (loc : CallerLoc) (e : E) (st : Registry Sink) (h : st.poisoned = false)
    (hf : oneLine loc.file = true) (hr : oneLine (dbg e) = true) :
    (unwrap_print_result (T := T) dbg tc loc (.Err e) st
        = .ok (.Err e, st, [invokeOn st (errMsg tc loc (dbg e))]) ∧
      oneLine (errMsg tc loc (dbg e)) = true) ∧
    (unwrap_print_option (T := T) tc loc none st
        = .ok (.Err (), st, [invokeOn st (errMsg tc loc "Option::None")]) ∧
      oneLine (errMsg tc loc "Option::None") = true) :=
  ⟨⟨by simp [unwrap_print_result, print, h], oneLine_errMsg tc loc (dbg e) hf hr⟩,
   ⟨by simp [unwrap_print_option, print, h], oneLine_errMsg tc loc "Option::None" hf rfl⟩⟩

/-- Witness for the amended C9: with file lib.rs, line 1, column 2 and the
single-line payload rendering "boom", both dispatched diagnostics are single
lines. -/
theorem c9_one_line_amended_witness :
    (unwrap_print_result (T := Unit) (fun s : String => s) true
        ⟨"lib.rs", 1, 2⟩ (.Err "boom") (Registry.init Nat)
        = .ok (.Err "boom", Registry.init Nat,
            [invokeOn (Registry.init Nat) (errMsg true ⟨"lib.rs", 1, 2⟩ "boom")]) ∧
      oneLine (errMsg true ⟨"lib.rs", 1, 2⟩ "boom") = true) ∧
    (unwrap_print_option (T := Unit) true ⟨"lib.rs", 1, 2⟩ none
        (Registry.init Nat)
        = .ok (.Err (), Registry.init Nat,
            [invokeOn (Registry.init Nat) (errMsg true ⟨"lib.rs", 1, 2⟩ "Option::None")]) ∧
      oneLine (errMsg true ⟨"lib.rs", 1, 2⟩ "Option::None") = true) :=
  c9_one_line_amended (fun s : String => s) true ⟨"lib.rs", 1, 2⟩ "boom"
    (Registry.init Nat) rfl rfl rfl

end UnwrapPrint
